import Mathlib

/-!
Verification development for the ErinGPT_Builder serverless handlers.

The repository consists of four JavaScript serverless functions:
  * `api/stripe-webhooks.js` — the Webhook Event Reconciler;
  * `api/stripe-config.js` (src/unnamed/part_000) — the Subscription Action
    Dispatcher;
  * `api/chat.js` — the Completion Proxy;
  * an older variant of the chat proxy (src/unnamed/part_001).

This file gives a shallow embedding of those handlers.  External collaborators
are modelled at their call boundary:
  * the Relational Store (Supabase) is a record of four lists of rows; the
    query combinators `.update().eq()`, `.filter().single()` and `.upsert()`
    are embedded as list transformations (`.single()` yields a row exactly
    when precisely one row matches, mirroring PostgREST);
  * calls issued to the billing gateway (Stripe) are recorded as a list of
    `GatewayCall` values carrying the arguments the code passes;
  * identifiers minted by the gateway (customer / session ids) are external
    nondeterminism and are replaced by deterministic placeholder strings —
    no claim inspects their values;
  * `new Date(x * 1000).toISOString()` is abstracted to the epoch-millisecond
    instant `x * 1000` it renders (the rendering is an injective presentation
    of that instant), and the wall clock `new Date()` is an explicit `now`
    parameter;
  * webhook signature verification (`stripe.webhooks.constructEvent`) is
    cryptography over the raw body and is modelled by its boolean outcome;
  * JavaScript numbers are modelled by exact rationals (`ℚ`), with
    `Math.round` as floor of `q + 1/2` (round half toward positive infinity).
-/

namespace ErinGPT

/-- JS `Math.round`: round half toward positive infinity, on exact rationals. -/
def jsRound (q : ℚ) : ℤ := ⌊q + 1/2⌋

/-- JS `a || d` for an optional string `a`: the default is taken when the
field is absent or the empty string (both falsy). -/
def jsOrStr (s : Option String) (d : String) : String :=
  match s with
  | some s => if s = "" then d else s
  | none => d

/-- JS truthiness of an optional string: present and non-empty. -/
def jsTruthy (s : Option String) : Bool :=
  match s with
  | some s => s != ""
  | none => false

/-! ## Relational Store rows -/

/-- Row of the `creator_subscriptions` table.  Timestamps are epoch millis. -/
structure CreatorSubRow where
  user_id : String
  stripe_customer_id : String
  stripe_subscription_id : String
  status : String
  current_period_start : Option Int := none
  current_period_end : Option Int := none
  updated_at : Option Int := none
deriving DecidableEq

/-- Row of the `customer_subscriptions` table. -/
structure CustomerSubRow where
  customer_id : String
  gpt_id : String
  creator_id : String
  stripe_customer_id : String
  stripe_subscription_id : String
  status : String
  current_period_start : Option Int := none
  current_period_end : Option Int := none
  updated_at : Option Int := none
deriving DecidableEq

/-- Row of the `creator_connect_accounts` table. -/
structure ConnectAccountRow where
  user_id : String
  stripe_account_id : String
  onboarding_complete : Bool
  charges_enabled : Bool
  payouts_enabled : Bool
  updated_at : Option Int := none
deriving DecidableEq

/-- Row of the `user_gpts` table (only the fields the Dispatcher reads:
`gptData.gpt_data.name` and `gptData.gpt_data.description`). -/
structure GptRow where
  id : String
  gpt_data_name : String
  gpt_data_description : String
deriving DecidableEq

/-- The Relational Store: the four tables the handlers touch. -/
structure DB where
  creator_subscriptions : List CreatorSubRow
  customer_subscriptions : List CustomerSubRow
  creator_connect_accounts : List ConnectAccountRow
  user_gpts : List GptRow
deriving DecidableEq

/-- Supabase `update(fields).eq(col, v)`: apply `f` to every row satisfying
`p`, leave the others untouched. -/
def updateWhere {α : Type} (p : α → Bool) (f : α → α) (rows : List α) : List α :=
  rows.map fun r => if p r then f r else r

/-- Supabase `select().eq(...).single()`: `data` is the row exactly when
precisely one row matches; with zero or several matches PostgREST errors and
`data` is null. -/
def singleRow {α : Type} (rows : List α) : Option α :=
  match rows with
  | [r] => some r
  | _ => none

/-- Supabase `.upsert(row)`.  The table schemas (and hence the conflict keys)
are not part of the repository; the claims proved here depend only on the
fields of the inserted row, so the upsert is modelled as an insert. -/
def upsertRow {α : Type} (row : α) (rows : List α) : List α :=
  rows ++ [row]

/-! ## Webhook event objects -/

/-- Stripe metadata object as the Reconciler reads it: the `type` tag may be
absent, the identity fields default to the empty string when unset. -/
structure EventMeta where
  userId : String := ""
  gptId : String := ""
  creatorId : String := ""
  type : Option String := none
deriving DecidableEq

/-- `checkout.session.completed` payload (`event.data.object`).
`handleCheckoutCompleted` destructures `metadata` and reads `metadata.type`
without a guard, so the metadata object is taken to be present (Stripe
materialises it on checkout sessions). -/
structure SessionObj where
  id : String
  metadata : EventMeta
  customer : String
  subscription : String
deriving DecidableEq

/-- `customer.subscription.*` payload.  `handleSubscriptionCreated` guards
`metadata && metadata.type`, so the metadata object itself may be absent. -/
structure SubscriptionObj where
  id : String
  customer : String
  status : String
  current_period_start : Int
  current_period_end : Int
  metadata : Option EventMeta := none
deriving DecidableEq

/-- `invoice.payment_failed` / `invoice.payment_succeeded` payload. -/
structure InvoiceObj where
  subscription : String
deriving DecidableEq

/-- `account.updated` payload. -/
structure AccountObj where
  id : String
  charges_enabled : Bool
  payouts_enabled : Bool
  details_submitted : Bool
deriving DecidableEq

/-- A verified webhook event, as dispatched on `event.type`. -/
inductive StripeEvent where
  | checkoutCompleted : SessionObj → StripeEvent
  | subscriptionCreated : SubscriptionObj → StripeEvent
  | subscriptionUpdated : SubscriptionObj → StripeEvent
  | subscriptionDeleted : SubscriptionObj → StripeEvent
  | paymentFailed : InvoiceObj → StripeEvent
  | paymentSucceeded : InvoiceObj → StripeEvent
  | accountUpdated : AccountObj → StripeEvent
  | other : String → StripeEvent
deriving DecidableEq

/-! ## Webhook Event Reconciler (api/stripe-webhooks.js) -/

/-- `handleCheckoutCompleted`, lines 80-112 of api/stripe-webhooks.js. -/
def handleCheckoutCompleted (s : SessionObj) (db : DB) : DB :=
  if s.metadata.type = some "creator_subscription" then
    { db with
      creator_subscriptions :=
        upsertRow
          { user_id := s.metadata.userId,
            stripe_customer_id := s.customer,
            stripe_subscription_id := s.subscription,
            status := "active" }
          db.creator_subscriptions }
  else if s.metadata.type = some "customer_subscription" then
    { db with
      customer_subscriptions :=
        upsertRow
          { customer_id := s.metadata.userId,
            gpt_id := s.metadata.gptId,
            creator_id := s.metadata.creatorId,
            stripe_customer_id := s.customer,
            stripe_subscription_id := s.subscription,
            status := "active" }
          db.customer_subscriptions }
  else
    db

/-- Test of `metadata && metadata.type === 'creator_subscription'` in
`handleSubscriptionCreated`. -/
def createdTagIsCreator (sub : SubscriptionObj) : Bool :=
  match sub.metadata with
  | some m => m.type == some "creator_subscription"
  | none => false

/-- Field update applied to a creator-subscription row by
`handleSubscriptionCreated` (status and period fields; no `updated_at`). -/
def applyCreatedToCreator (sub : SubscriptionObj) (r : CreatorSubRow) : CreatorSubRow :=
  { r with
    status := sub.status,
    current_period_start := some (1000 * sub.current_period_start),
    current_period_end := some (1000 * sub.current_period_end) }

/-- Field update applied to a customer-subscription row by
`handleSubscriptionCreated`. -/
def applyCreatedToCustomer (sub : SubscriptionObj) (r : CustomerSubRow) : CustomerSubRow :=
  { r with
    status := sub.status,
    current_period_start := some (1000 * sub.current_period_start),
    current_period_end := some (1000 * sub.current_period_end) }

/-- `handleSubscriptionCreated`, lines 114-140: when the metadata carries the
`creator_subscription` tag the creator table is updated, otherwise (any other
tag value, tag absent, or metadata absent) the `else` branch updates the
customer table. -/
def handleSubscriptionCreated (sub : SubscriptionObj) (db : DB) : DB :=
  if createdTagIsCreator sub then
    { db with
      creator_subscriptions :=
        updateWhere (fun r => r.stripe_subscription_id == sub.id)
          (applyCreatedToCreator sub) db.creator_subscriptions }
  else
    { db with
      customer_subscriptions :=
        updateWhere (fun r => r.stripe_subscription_id == sub.id)
          (applyCreatedToCustomer sub) db.customer_subscriptions }

/-- Field update applied by `handleSubscriptionUpdated` to a creator row. -/
def applyUpdatedToCreator (sub : SubscriptionObj) (now : Int) (r : CreatorSubRow) : CreatorSubRow :=
  { r with
    status := sub.status,
    current_period_start := some (1000 * sub.current_period_start),
    current_period_end := some (1000 * sub.current_period_end),
    updated_at := some now }

/-- Field update applied by `handleSubscriptionUpdated` to a customer row. -/
def applyUpdatedToCustomer (sub : SubscriptionObj) (now : Int) (r : CustomerSubRow) : CustomerSubRow :=
  { r with
    status := sub.status,
    current_period_start := some (1000 * sub.current_period_start),
    current_period_end := some (1000 * sub.current_period_end),
    updated_at := some now }

/-- `handleSubscriptionUpdated`, lines 142-172: unconditionally updates both
tables by subscription id (a no-match update is not an error; the logged
not-found branch has no store effect). -/
def handleSubscriptionUpdated (sub : SubscriptionObj) (now : Int) (db : DB) : DB :=
  { db with
    creator_subscriptions :=
      updateWhere (fun r => r.stripe_subscription_id == sub.id)
        (applyUpdatedToCreator sub now) db.creator_subscriptions
    customer_subscriptions :=
      updateWhere (fun r => r.stripe_subscription_id == sub.id)
        (applyUpdatedToCustomer sub now) db.customer_subscriptions }

/-- `update({ status, updated_at })` on a creator row. -/
def setStatusCreator (st : String) (now : Int) (r : CreatorSubRow) : CreatorSubRow :=
  { r with status := st, updated_at := some now }

/-- `update({ status, updated_at })` on a customer row. -/
def setStatusCustomer (st : String) (now : Int) (r : CustomerSubRow) : CustomerSubRow :=
  { r with status := st, updated_at := some now }

/-- `handleSubscriptionDeleted`, lines 174-187: set status `canceled` on both
tables by subscription id. -/
def handleSubscriptionDeleted (sub : SubscriptionObj) (now : Int) (db : DB) : DB :=
  { db with
    creator_subscriptions :=
      updateWhere (fun r => r.stripe_subscription_id == sub.id)
        (setStatusCreator "canceled" now) db.creator_subscriptions
    customer_subscriptions :=
      updateWhere (fun r => r.stripe_subscription_id == sub.id)
        (setStatusCustomer "canceled" now) db.customer_subscriptions }

/-- `handlePaymentFailed`, lines 189-202: set status `past_due` on both
tables by `invoice.subscription`. -/
def handlePaymentFailed (invoice : InvoiceObj) (now : Int) (db : DB) : DB :=
  { db with
    creator_subscriptions :=
      updateWhere (fun r => r.stripe_subscription_id == invoice.subscription)
        (setStatusCreator "past_due" now) db.creator_subscriptions
    customer_subscriptions :=
      updateWhere (fun r => r.stripe_subscription_id == invoice.subscription)
        (setStatusCustomer "past_due" now) db.customer_subscriptions }

/-- `handlePaymentSucceeded`, lines 204-217: set status `active` on both
tables by `invoice.subscription`. -/
def handlePaymentSucceeded (invoice : InvoiceObj) (now : Int) (db : DB) : DB :=
  { db with
    creator_subscriptions :=
      updateWhere (fun r => r.stripe_subscription_id == invoice.subscription)
        (setStatusCreator "active" now) db.creator_subscriptions
    customer_subscriptions :=
      updateWhere (fun r => r.stripe_subscription_id == invoice.subscription)
        (setStatusCustomer "active" now) db.customer_subscriptions }

/-- `handleConnectAccountUpdated`, lines 219-232. -/
def handleConnectAccountUpdated (account : AccountObj) (now : Int) (db : DB) : DB :=
  { db with
    creator_connect_accounts :=
      updateWhere (fun r => r.stripe_account_id == account.id)
        (fun r =>
          { r with
            charges_enabled := account.charges_enabled,
            payouts_enabled := account.payouts_enabled,
            onboarding_complete := account.details_submitted,
            updated_at := some now })
        db.creator_connect_accounts }

/-- The `switch (event.type)` dispatch, lines 40-71; unhandled types no-op. -/
def processEvent (e : StripeEvent) (now : Int) (db : DB) : DB :=
  match e with
  | .checkoutCompleted s => handleCheckoutCompleted s db
  | .subscriptionCreated s => handleSubscriptionCreated s db
  | .subscriptionUpdated s => handleSubscriptionUpdated s now db
  | .subscriptionDeleted s => handleSubscriptionDeleted s now db
  | .paymentFailed i => handlePaymentFailed i now db
  | .paymentSucceeded i => handlePaymentSucceeded i now db
  | .accountUpdated a => handleConnectAccountUpdated a now db
  | .other _ => db

/-- HTTP response of the webhook endpoint: status code, and whether the body
is the success payload `{received: true}`. -/
structure WebhookResp where
  status : Nat
  received : Bool
deriving DecidableEq

/-- Top-level webhook handler, lines 21-78: 405 for non-POST, 400 when the
signature fails verification (`constructEvent` throws) with the store left
untouched, otherwise dispatch and answer 200 `{received: true}`.  Every
embedded event handler is total, so the catch-all 500 branch of the source is
unreachable in the model. -/
def stripeWebhookHandler (method : String) (sigValid : Bool) (e : StripeEvent)
    (now : Int) (db : DB) : WebhookResp × DB :=
  if method ≠ "POST" then ({ status := 405, received := false }, db)
  else if sigValid then ({ status := 200, received := true }, processEvent e now db)
  else ({ status := 400, received := false }, db)

/-! ## Helper lemmas on `updateWhere` -/

/-- Membership in an `updateWhere` result: each row is an original row or the
image of an original row under the update. -/
lemma mem_updateWhere {α : Type} (p : α → Bool) (f : α → α) (rows : List α) (r : α)
    (h : r ∈ updateWhere p f rows) : r ∈ rows ∨ ∃ x, x ∈ rows ∧ r = f x := by
  rcases List.mem_map.mp h with ⟨a, ha, hga⟩
  by_cases hp : p a = true
  · right
    exact ⟨a, ha, by simp [hp] at hga; exact hga.symm⟩
  · left
    simp [Bool.not_eq_true] at hp
    simp [hp] at hga
    exact hga ▸ ha

/-- Every row matching `p` after `updateWhere p f` satisfies `q`, provided
`f` preserves `p` and forces `q`. -/
lemma all_filter_updateWhere {α : Type} (p q : α → Bool) (f : α → α) (rows : List α)
    (hfix : ∀ r, p (f r) = p r) (hset : ∀ r, q (f r) = true) :
    ((updateWhere p f rows).filter p).all q = true := by
  induction rows with
  | nil => rfl
  | cons a l ih =>
    by_cases hp : p a = true
    · simp only [updateWhere, List.map_cons, hp, if_true, List.filter_cons,
        hfix, List.all_cons]
      simp [hp, hset, updateWhere] at ih ⊢
      exact ih
    · simp only [Bool.not_eq_true] at hp
      simp only [updateWhere, List.map_cons, hp, Bool.false_eq_true, if_false,
        List.filter_cons]
      simp [hp, updateWhere] at ih ⊢
      exact ih

/-! ## Claim theorems: Reconciler -/

/-- C7: a webhook POST whose signature fails verification is answered with
status 400 and leaves every Relational Store row unchanged. -/
theorem invalid_signature_rejected_no_mutation (e : StripeEvent) (now : Int) (db : DB) :
    stripeWebhookHandler "POST" false e now db
      = ({ status := 400, received := false }, db) := by
  simp [stripeWebhookHandler]

/-- C8: processing `customer.subscription.deleted` is idempotent with respect
to subscription status: after the first and after the second delivery every
row of either table matching the subscription id has status `canceled`, and
both deliveries are answered 200. -/
theorem subscription_deleted_idempotent (sub : SubscriptionObj) (t1 t2 : Int) (db : DB) :
    (stripeWebhookHandler "POST" true (.subscriptionDeleted sub) t1 db).1
        = { status := 200, received := true }
    ∧ (stripeWebhookHandler "POST" true (.subscriptionDeleted sub) t2
        (stripeWebhookHandler "POST" true (.subscriptionDeleted sub) t1 db).2).1
        = { status := 200, received := true }
    ∧ (((stripeWebhookHandler "POST" true (.subscriptionDeleted sub) t1 db).2.creator_subscriptions.filter
          fun r => r.stripe_subscription_id == sub.id).all
          fun r => r.status == "canceled") = true
    ∧ (((stripeWebhookHandler "POST" true (.subscriptionDeleted sub) t1 db).2.customer_subscriptions.filter
          fun r => r.stripe_subscription_id == sub.id).all
          fun r => r.status == "canceled") = true
    ∧ (((stripeWebhookHandler "POST" true (.subscriptionDeleted sub) t2
          (stripeWebhookHandler "POST" true (.subscriptionDeleted sub) t1 db).2).2.creator_subscriptions.filter
          fun r => r.stripe_subscription_id == sub.id).all
          fun r => r.status == "canceled") = true
    ∧ (((stripeWebhookHandler "POST" true (.subscriptionDeleted sub) t2
          (stripeWebhookHandler "POST" true (.subscriptionDeleted sub) t1 db).2).2.customer_subscriptions.filter
          fun r => r.stripe_subscription_id == sub.id).all
          fun r => r.status == "canceled") = true := by
  refine ⟨rfl, rfl, ?_, ?_, ?_, ?_⟩ <;>
    simp only [stripeWebhookHandler, if_neg (by decide : ¬ ("POST" ≠ "POST")),
      if_pos rfl, processEvent, handleSubscriptionDeleted] <;>
    exact all_filter_updateWhere _ _ _ _ (fun r => rfl) (fun r => rfl)

/-- C1 (amended): dispatch of `customer.subscription.created` touches exactly
one table.  When the metadata tag equals `creator_subscription` only the
creator table receives the period/status update; in every other case — tag
present with another value, tag absent, or metadata object absent — only the
customer table is updated, and the other table is left unchanged. -/
theorem subscriptionCreated_updates_exactly_one_table (sub : SubscriptionObj) (now : Int) (db : DB) :
    (stripeWebhookHandler "POST" true (.subscriptionCreated sub) now db).2.creator_subscriptions
      = (if createdTagIsCreator sub then
          updateWhere (fun r => r.stripe_subscription_id == sub.id)
            (applyCreatedToCreator sub) db.creator_subscriptions
        else db.creator_subscriptions)
    ∧ (stripeWebhookHandler "POST" true (.subscriptionCreated sub) now db).2.customer_subscriptions
      = (if createdTagIsCreator sub then db.customer_subscriptions
        else
          updateWhere (fun r => r.stripe_subscription_id == sub.id)
            (applyCreatedToCustomer sub) db.customer_subscriptions) := by
  by_cases h : createdTagIsCreator sub <;>
    simp [stripeWebhookHandler, processEvent, handleSubscriptionCreated, h]

/-- C1 counterexample: a `customer.subscription.created` event whose metadata
lacks the type tag does not attempt the update against the creator table: a
creator row matching the subscription id keeps its old status `past_due`
instead of receiving the carried status `active`. -/
theorem subscriptionCreated_untagged_skips_creator_table :
    ((stripeWebhookHandler "POST" true
        (.subscriptionCreated
          { id := "sub_1", customer := "cus_1", status := "active",
            current_period_start := 1, current_period_end := 2,
            metadata := some { type := none } })
        0
        { creator_subscriptions :=
            [{ user_id := "u1", stripe_customer_id := "cus_1",
               stripe_subscription_id := "sub_1", status := "past_due" }],
          customer_subscriptions := [],
          creator_connect_accounts := [],
          user_gpts := [] }).2.creator_subscriptions.map CreatorSubRow.status)
      = ["past_due"]
    ∧ ("past_due" : String) ≠ "active" := by
  exact ⟨rfl, by decide⟩

/-- Status carried inside the event payload, written through verbatim by the
`customer.subscription.created` / `customer.subscription.updated` handlers. -/
def carriedStatus : StripeEvent → String
  | .subscriptionCreated s => s.status
  | .subscriptionUpdated s => s.status
  | _ => ""

/-- After `updateWhere` with an update that forces `g` to the constant `c`,
the `g`-value of every row is an old `g`-value or `c`. -/
lemma mem_status_updateWhere_const {α : Type} (g : α → String) (p : α → Bool)
    (f : α → α) (rows : List α) (c : String) (hf : ∀ x, g (f x) = c) (r : α)
    (h : r ∈ updateWhere p f rows) : g r ∈ rows.map g ∨ g r = c := by
  rcases mem_updateWhere p f rows r h with h1 | ⟨x, hx, rfl⟩
  · exact Or.inl (List.mem_map_of_mem g h1)
  · exact Or.inr (hf x)

/-- C2 (amended): every subscription status the Reconciler writes is either a
status already present in the table, one of the enumerated literals
`active` / `past_due` / `canceled` (written by `checkout.session.completed`,
`customer.subscription.deleted`, `invoice.payment_failed`,
`invoice.payment_succeeded`), or — for `customer.subscription.created` and
`customer.subscription.updated` — the status carried in the event payload,
which is written through verbatim and need not belong to the enumerated
set. -/
theorem status_writes_enumerated_or_carried (e : StripeEvent) (now : Int) (db : DB) :
    (∀ r : CreatorSubRow,
        r ∈ (stripeWebhookHandler "POST" true e now db).2.creator_subscriptions →
        r.status ∈ db.creator_subscriptions.map CreatorSubRow.status
          ∨ r.status ∈ (["active", "past_due", "canceled"] : List String)
          ∨ r.status = carriedStatus e)
    ∧ (∀ r : CustomerSubRow,
        r ∈ (stripeWebhookHandler "POST" true e now db).2.customer_subscriptions →
        r.status ∈ db.customer_subscriptions.map CustomerSubRow.status
          ∨ r.status ∈ (["active", "past_due", "canceled"] : List String)
          ∨ r.status = carriedStatus e) := by
  have hred : (stripeWebhookHandler "POST" true e now db).2 = processEvent e now db := by
    simp [stripeWebhookHandler]
  rw [hred]
  constructor
  · intro r hr
    cases e with
    | checkoutCompleted s =>
        by_cases h1 : s.metadata.type = some "creator_subscription"
        · simp only [processEvent, handleCheckoutCompleted, if_pos h1, upsertRow] at hr
          rcases List.mem_append.mp hr with hr | hr
          · exact Or.inl (List.mem_map_of_mem _ hr)
          · rcases List.mem_singleton.mp hr with rfl
            right; left; simp
        · by_cases h2 : s.metadata.type = some "customer_subscription" <;>
            simp only [processEvent, handleCheckoutCompleted, if_neg h1, h2,
              if_pos, if_neg, if_true, if_false] at hr <;>
            exact Or.inl (List.mem_map_of_mem _ hr)
    | subscriptionCreated s =>
        by_cases h1 : createdTagIsCreator s
        · simp only [processEvent, handleSubscriptionCreated, if_pos h1] at hr
          rcases mem_status_updateWhere_const CreatorSubRow.status _ _ _ s.status
              (fun x => rfl) r hr with h | h
          · exact Or.inl h
          · exact Or.inr (Or.inr h)
        · simp only [processEvent, handleSubscriptionCreated, if_neg h1] at hr
          exact Or.inl (List.mem_map_of_mem _ hr)
    | subscriptionUpdated s =>
        simp only [processEvent, handleSubscriptionUpdated] at hr
        rcases mem_status_updateWhere_const CreatorSubRow.status _ _ _ s.status
            (fun x => rfl) r hr with h | h
        · exact Or.inl h
        · exact Or.inr (Or.inr h)
    | subscriptionDeleted s =>
        simp only [processEvent, handleSubscriptionDeleted] at hr
        rcases mem_status_updateWhere_const CreatorSubRow.status _ _ _ "canceled"
            (fun x => rfl) r hr with h | h
        · exact Or.inl h
        · right; left; simp [h]
    | paymentFailed i =>
        simp only [processEvent, handlePaymentFailed] at hr
        rcases mem_status_updateWhere_const CreatorSubRow.status _ _ _ "past_due"
            (fun x => rfl) r hr with h | h
        · exact Or.inl h
        · right; left; simp [h]
    | paymentSucceeded i =>
        simp only [processEvent, handlePaymentSucceeded] at hr
        rcases mem_status_updateWhere_const CreatorSubRow.status _ _ _ "active"
            (fun x => rfl) r hr with h | h
        · exact Or.inl h
        · right; left; simp [h]
    | accountUpdated a =>
        simp only [processEvent, handleConnectAccountUpdated] at hr
        exact Or.inl (List.mem_map_of_mem _ hr)
    | other t =>
        simp only [processEvent] at hr
        exact Or.inl (List.mem_map_of_mem _ hr)
  · intro r hr
    cases e with
    | checkoutCompleted s =>
        by_cases h1 : s.metadata.type = some "creator_subscription"
        · simp only [processEvent, handleCheckoutCompleted, if_pos h1] at hr
          exact Or.inl (List.mem_map_of_mem _ hr)
        · by_cases h2 : s.metadata.type = some "customer_subscription"
          · simp only [processEvent, handleCheckoutCompleted, if_neg h1, if_pos h2,
              upsertRow] at hr
            rcases List.mem_append.mp hr with hr | hr
            · exact Or.inl (List.mem_map_of_mem _ hr)
            · rcases List.mem_singleton.mp hr with rfl
              right; left; simp
          · simp only [processEvent, handleCheckoutCompleted, if_neg h1, if_neg h2] at hr
            exact Or.inl (List.mem_map_of_mem _ hr)
    | subscriptionCreated s =>
        by_cases h1 : createdTagIsCreator s
        · simp only [processEvent, handleSubscriptionCreated, if_pos h1] at hr
          exact Or.inl (List.mem_map_of_mem _ hr)
        · simp only [processEvent, handleSubscriptionCreated, if_neg h1] at hr
          rcases mem_status_updateWhere_const CustomerSubRow.status _ _ _ s.status
              (fun x => rfl) r hr with h | h
          · exact Or.inl h
          · exact Or.inr (Or.inr h)
    | subscriptionUpdated s =>
        simp only [processEvent, handleSubscriptionUpdated] at hr
        rcases mem_status_updateWhere_const CustomerSubRow.status _ _ _ s.status
            (fun x => rfl) r hr with h | h
        · exact Or.inl h
        · exact Or.inr (Or.inr h)
    | subscriptionDeleted s =>
        simp only [processEvent, handleSubscriptionDeleted] at hr
        rcases mem_status_updateWhere_const CustomerSubRow.status _ _ _ "canceled"
            (fun x => rfl) r hr with h | h
        · exact Or.inl h
        · right; left; simp [h]
    | paymentFailed i =>
        simp only [processEvent, handlePaymentFailed] at hr
        rcases mem_status_updateWhere_const CustomerSubRow.status _ _ _ "past_due"
            (fun x => rfl) r hr with h | h
        · exact Or.inl h
        · right; left; simp [h]
    | paymentSucceeded i =>
        simp only [processEvent, handlePaymentSucceeded] at hr
        rcases mem_status_updateWhere_const CustomerSubRow.status _ _ _ "active"
            (fun x => rfl) r hr with h | h
        · exact Or.inl h
        · right; left; simp [h]
    | accountUpdated a =>
        simp only [processEvent, handleConnectAccountUpdated] at hr
        exact Or.inl (List.mem_map_of_mem _ hr)
    | other t =>
        simp only [processEvent] at hr
        exact Or.inl (List.mem_map_of_mem _ hr)

/-- C2 witness: the amended theorem applied to a concrete
`customer.subscription.deleted` delivery against a one-row table. -/
theorem status_writes_witness :
    CreatorSubRow.status
        { user_id := "u1", stripe_customer_id := "c",
          stripe_subscription_id := "sub_1", status := "canceled",
          updated_at := some 0 }
      ∈ List.map CreatorSubRow.status
          [{ user_id := "u1", stripe_customer_id := "c",
             stripe_subscription_id := "sub_1", status := "past_due" }]
      ∨ CreatorSubRow.status
          { user_id := "u1", stripe_customer_id := "c",
            stripe_subscription_id := "sub_1", status := "canceled",
            updated_at := some 0 }
        ∈ (["active", "past_due", "canceled"] : List String)
      ∨ CreatorSubRow.status
          { user_id := "u1", stripe_customer_id := "c",
            stripe_subscription_id := "sub_1", status := "canceled",
            updated_at := some 0 }
        = carriedStatus
            (.subscriptionDeleted
              { id := "sub_1", customer := "c", status := "canceled",
                current_period_start := 0, current_period_end := 0 }) :=
  (status_writes_enumerated_or_carried
      (.subscriptionDeleted
        { id := "sub_1", customer := "c", status := "canceled",
          current_period_start := 0, current_period_end := 0 })
      0
      { creator_subscriptions :=
          [{ user_id := "u1", stripe_customer_id := "c",
             stripe_subscription_id := "sub_1", status := "past_due" }],
        customer_subscriptions := [],
        creator_connect_accounts := [],
        user_gpts := [] }).1
    { user_id := "u1", stripe_customer_id := "c",
      stripe_subscription_id := "sub_1", status := "canceled",
      updated_at := some 0 }
    (by decide)

/-- C2 counterexample: `customer.subscription.created` carrying the gateway
status `trialing` writes it through to the matching customer-subscription
row, so the written status escapes the set `{active, past_due, canceled}`. -/
theorem created_writes_out_of_set_status :
    ((stripeWebhookHandler "POST" true
        (.subscriptionCreated
          { id := "sub_9", customer := "c", status := "trialing",
            current_period_start := 0, current_period_end := 0 })
        0
        { creator_subscriptions := [],
          customer_subscriptions :=
            [{ customer_id := "cust", gpt_id := "g", creator_id := "cr",
               stripe_customer_id := "c", stripe_subscription_id := "sub_9",
               status := "active" }],
          creator_connect_accounts := [],
          user_gpts := [] }).2.customer_subscriptions.map CustomerSubRow.status)
      = ["trialing"]
    ∧ ("trialing" : String) ∉ (["active", "past_due", "canceled"] : List String) := by
  exact ⟨rfl, by decide⟩

/-- C9: a `checkout.session.completed` event whose metadata type tag is
neither `creator_subscription` nor `customer_subscription` falls through both
branches of `handleCheckoutCompleted`: no Relational Store row is mutated and
the handler still answers 200 `{received: true}`. -/
theorem checkout_unknown_type_noop (s : SessionObj) (now : Int) (db : DB)
    (h1 : s.metadata.type ≠ some "creator_subscription")
    (h2 : s.metadata.type ≠ some "customer_subscription") :
    stripeWebhookHandler "POST" true (.checkoutCompleted s) now db
      = ({ status := 200, received := true }, db) := by
  simp [stripeWebhookHandler, processEvent, handleCheckoutCompleted, h1, h2]

/-- C9 witness: concrete session with an unrecognised tag. -/
theorem checkout_unknown_type_noop_witness :
    stripeWebhookHandler "POST" true
        (.checkoutCompleted
          { id := "cs_1", metadata := { type := some "gift_card" },
            customer := "c", subscription := "s" })
        0
        { creator_subscriptions := [], customer_subscriptions := [],
          creator_connect_accounts := [], user_gpts := [] }
      = ({ status := 200, received := true },
        { creator_subscriptions := [], customer_subscriptions := [],
          creator_connect_accounts := [], user_gpts := [] }) :=
  checkout_unknown_type_noop _ 0 _ (by decide) (by decide)

/-! ## Completion Proxy (api/chat.js and the src/unnamed/part_001 variant) -/

/-- The `messages` field of the request body as the JS validation sees it:
absent (or otherwise falsy), present but not an array, or an array. -/
inductive MessagesField (α : Type) where
  | absent : MessagesField α
  | notAnArray : MessagesField α
  | arr : List α → MessagesField α
deriving DecidableEq

/-- A chat turn. -/
structure ChatMsg where
  role : String
  content : String
deriving DecidableEq

/-- Request body `{messages, instructions?, context?, model?}`. -/
structure ChatBody where
  messages : MessagesField ChatMsg
  instructions : Option String := none
  context : Option String := none
  model : Option String := none
deriving DecidableEq

/-- Body of the outgoing request to the Completion API. -/
structure OutgoingReq where
  model : String
  messages : List ChatMsg
  max_tokens : Nat
  temperature : ℚ
  stream : Option Bool
deriving DecidableEq

/-- Observable outcome of a proxy invocation, up to the external call
boundary: either an early response with the given HTTP status and no call to
the Completion API, or the request sent to the Completion API. -/
inductive ProxyStep where
  | reject : Nat → ProxyStep
  | callApi : OutgoingReq → ProxyStep
deriving DecidableEq

/-- JS `String.prototype.trim()`: strip leading and trailing whitespace.
Implemented structurally (core `String.trim` uses well-founded recursion and
does not evaluate inside the kernel). -/
def jsTrim (s : String) : String :=
  ⟨((s.data.dropWhile Char.isWhitespace).reverse.dropWhile Char.isWhitespace).reverse⟩

/-- System prompt construction of api/chat.js, lines 42-47: default prompt
when `instructions` is falsy; context appended when `context` is truthy and
non-blank after trimming. -/
def chatSystemContent (instructions context : Option String) : String :=
  let base := jsOrStr instructions "You are a helpful AI assistant."
  if jsTruthy context && (jsTrim (context.getD "") != "") then
    base ++ "\n\nRelevant information from uploaded documents:\n" ++ context.getD ""
  else base

/-- api/chat.js handler, up to the Completion API call boundary: 200 for
OPTIONS preflight, 405 for other non-POST, 500 when the API key is not
configured (absent or empty), 400 when `messages` is missing, not an array,
or empty; otherwise the outgoing request with the system turn prepended and
fixed sampling parameters (`max_tokens` 1500, temperature 0.7,
`stream: false`). -/
def chatHandler (method : String) (apiKey : Option String) (body : ChatBody) : ProxyStep :=
  if method = "OPTIONS" then .reject 200
  else if method ≠ "POST" then .reject 405
  else if ¬ jsTruthy apiKey then .reject 500
  else
    match body.messages with
    | .arr msgs =>
        if msgs.isEmpty then .reject 400
        else
          .callApi
            { model := body.model.getD "openai/gpt-4o-mini",
              messages :=
                { role := "system",
                  content := chatSystemContent body.instructions body.context } :: msgs,
              max_tokens := 1500,
              temperature := 7/10,
              stream := some false }
    | _ => .reject 400

/-- System prompt construction of the part_001 variant, lines 15-20: a
different default prompt, and the context appended whenever `context` is
truthy — there is no trim check. -/
def chatSystemContentV0 (instructions context : Option String) : String :=
  let base := jsOrStr instructions "You are a helpful assistant."
  if jsTruthy context then
    base ++ "\n\nRelevant information from uploaded documents:\n" ++ context.getD ""
  else base

/-- part_001 handler, up to the Completion API call boundary: 405 for
non-POST, 400 when `messages` is missing or not an array — an empty array is
NOT rejected — otherwise the outgoing request (`max_tokens` 1000,
temperature 0.7, no stream field, hard-coded API key). -/
def chatHandlerV0 (method : String) (body : ChatBody) : ProxyStep :=
  if method ≠ "POST" then .reject 405
  else
    match body.messages with
    | .arr msgs =>
        .callApi
          { model := body.model.getD "openai/gpt-4o-mini",
            messages :=
              { role := "system",
                content := chatSystemContentV0 body.instructions body.context } :: msgs,
            max_tokens := 1000,
            temperature := 7/10,
            stream := none }
    | _ => .reject 400

/-- Validation predicate of api/chat.js, line 38:
`!messages || !Array.isArray(messages) || messages.length === 0`. -/
def invalidMessagesStrict : MessagesField ChatMsg → Bool
  | .absent => true
  | .notAnArray => true
  | .arr msgs => msgs.isEmpty

/-- Validation predicate of part_001, line 11:
`!messages || !Array.isArray(messages)` — no emptiness check. -/
def invalidMessagesLoose : MessagesField ChatMsg → Bool
  | .absent => true
  | .notAnArray => true
  | .arr _ => false

/-- C4 (amended): the api/chat.js proxy answers 400 — before any Completion
API call — whenever `messages` is missing, not an array, or an empty array;
the part_001 variant answers 400 only when `messages` is missing or not an
array (its validation has no emptiness check, so an empty array is forwarded,
as the counterexample shows). -/
theorem chat_invalid_messages_rejected (k : String) (body : ChatBody) (hk : k ≠ "") :
    (invalidMessagesStrict body.messages = true →
      chatHandler "POST" (some k) body = .reject 400)
    ∧ (invalidMessagesLoose body.messages = true →
      chatHandlerV0 "POST" body = .reject 400) := by
  constructor
  · intro h
    cases hm : body.messages with
    | absent => simp [chatHandler, jsTruthy, hk, hm]
    | notAnArray => simp [chatHandler, jsTruthy, hk, hm]
    | arr msgs =>
        rw [hm] at h
        simp only [invalidMessagesStrict] at h
        simp [chatHandler, jsTruthy, hk, hm, h]
  · intro h
    cases hm : body.messages with
    | absent => simp [chatHandlerV0, hm]
    | notAnArray => simp [chatHandlerV0, hm]
    | arr msgs => rw [hm] at h; simp [invalidMessagesLoose] at h

/-- C4 witness: a request with `messages` absent is rejected with 400 by both
handlers. -/
theorem chat_invalid_messages_rejected_witness :
    chatHandler "POST" (some "sk_test") { messages := .absent } = .reject 400
    ∧ chatHandlerV0 "POST" { messages := .absent } = .reject 400 :=
  ⟨(chat_invalid_messages_rejected "sk_test" { messages := .absent } (by decide)).1 rfl,
   (chat_invalid_messages_rejected "sk_test" { messages := .absent } (by decide)).2 rfl⟩

/-- C4 counterexample: the part_001 variant does not reject an empty
`messages` array — it forwards a request to the Completion API consisting of
the system turn alone, instead of answering 400. -/
theorem chatV0_accepts_empty_messages :
    chatHandlerV0 "POST" { messages := .arr [] }
      = .callApi
          { model := "openai/gpt-4o-mini",
            messages := [{ role := "system", content := "You are a helpful assistant." }],
            max_tokens := 1000,
            temperature := 7/10,
            stream := none }
    ∧ chatHandlerV0 "POST" { messages := .arr [] } ≠ .reject 400 := by
  exact ⟨rfl, by decide⟩

/-- Messages of the outgoing request, empty when no call is made. -/
def outMessages : ProxyStep → List ChatMsg
  | .reject _ => []
  | .callApi r => r.messages

/-- `jsOrStr` phrased through `Option.getD`. -/
lemma jsOrStr_eq (s : Option String) (d : String) :
    jsOrStr s d = if s.getD "" = "" then d else s.getD "" := by
  cases s with
  | none => simp [jsOrStr]
  | some s => by_cases hs : s = "" <;> simp [jsOrStr, hs]

/-- The api/chat.js system prompt: context appended exactly when non-blank
after trimming (an absent or empty context trims to the empty string). -/
lemma chatSystemContent_eq (ins ctx : Option String) :
    chatSystemContent ins ctx
      = if jsTrim (ctx.getD "") = ""
          then jsOrStr ins "You are a helpful AI assistant."
          else jsOrStr ins "You are a helpful AI assistant."
            ++ "\n\nRelevant information from uploaded documents:\n" ++ ctx.getD "" := by
  cases ctx with
  | none => simp [chatSystemContent, jsTruthy, show jsTrim "" = "" from by decide]
  | some s =>
      by_cases hs : s = ""
      · subst hs
        simp [chatSystemContent, jsTruthy, show jsTrim "" = "" from by decide]
      · by_cases ht : jsTrim s = "" <;> simp [chatSystemContent, jsTruthy, hs, ht]

/-- The part_001 system prompt: context appended exactly when it is a
non-empty string. -/
lemma chatSystemContentV0_eq (ins ctx : Option String) :
    chatSystemContentV0 ins ctx
      = if ctx.getD "" = ""
          then jsOrStr ins "You are a helpful assistant."
          else jsOrStr ins "You are a helpful assistant."
            ++ "\n\nRelevant information from uploaded documents:\n" ++ ctx.getD "" := by
  cases ctx with
  | none => simp [chatSystemContentV0, jsTruthy]
  | some s => by_cases hs : s = "" <;> simp [chatSystemContentV0, jsTruthy, hs]

/-- C5 (amended): on a valid non-empty `messages` array both proxies forward
the caller's turns unchanged, preceded by one system turn.  Its content is
the provided instructions when those are a non-empty string, else the
handler's default prompt (`You are a helpful AI assistant.` in api/chat.js,
`You are a helpful assistant.` in the part_001 variant); api/chat.js appends
the context text exactly when the context is non-empty after trimming
whitespace, while the part_001 variant appends it whenever the context is a
non-empty string, even an all-whitespace one. -/
theorem chat_system_prompt_construction (k : String) (body : ChatBody)
    (msgs : List ChatMsg) (hk : k ≠ "") (hm : body.messages = .arr msgs)
    (hne : msgs ≠ []) :
    outMessages (chatHandler "POST" (some k) body)
      = { role := "system",
          content :=
            if jsTrim (body.context.getD "") = "" then
              (if body.instructions.getD "" = "" then "You are a helpful AI assistant."
                else body.instructions.getD "")
            else
              (if body.instructions.getD "" = "" then "You are a helpful AI assistant."
                else body.instructions.getD "")
              ++ "\n\nRelevant information from uploaded documents:\n"
              ++ body.context.getD "" } :: msgs
    ∧ outMessages (chatHandlerV0 "POST" body)
      = { role := "system",
          content :=
            if body.context.getD "" = "" then
              (if body.instructions.getD "" = "" then "You are a helpful assistant."
                else body.instructions.getD "")
            else
              (if body.instructions.getD "" = "" then "You are a helpful assistant."
                else body.instructions.getD "")
              ++ "\n\nRelevant information from uploaded documents:\n"
              ++ body.context.getD "" } :: msgs := by
  have hkey : jsTruthy (some k) = true := by simp [jsTruthy, hk]
  have hempty : msgs.isEmpty = false := by
    cases msgs with
    | nil => exact absurd rfl hne
    | cons a l => rfl
  constructor
  · simp [chatHandler, hm, hkey, hempty, outMessages, chatSystemContent_eq, jsOrStr_eq]
  · simp [chatHandlerV0, hm, outMessages, chatSystemContentV0_eq, jsOrStr_eq]

/-- C5 witness: concrete valid request with no instructions and no context
through both handlers. -/
theorem chat_system_prompt_construction_witness :
    outMessages (chatHandler "POST" (some "sk_test")
        { messages := .arr [{ role := "user", content := "hello" }] })
      = { role := "system",
          content :=
            if jsTrim ((none : Option String).getD "") = "" then
              (if (none : Option String).getD "" = "" then "You are a helpful AI assistant."
                else (none : Option String).getD "")
            else
              (if (none : Option String).getD "" = "" then "You are a helpful AI assistant."
                else (none : Option String).getD "")
              ++ "\n\nRelevant information from uploaded documents:\n"
              ++ (none : Option String).getD "" }
        :: [{ role := "user", content := "hello" }]
    ∧ outMessages (chatHandlerV0 "POST"
        { messages := .arr [{ role := "user", content := "hello" }] })
      = { role := "system",
          content :=
            if (none : Option String).getD "" = "" then
              (if (none : Option String).getD "" = "" then "You are a helpful assistant."
                else (none : Option String).getD "")
            else
              (if (none : Option String).getD "" = "" then "You are a helpful assistant."
                else (none : Option String).getD "")
              ++ "\n\nRelevant information from uploaded documents:\n"
              ++ (none : Option String).getD "" }
        :: [{ role := "user", content := "hello" }] :=
  chat_system_prompt_construction "sk_test"
    { messages := .arr [{ role := "user", content := "hello" }] }
    [{ role := "user", content := "hello" }] (by decide) rfl (by decide)

/-- C5 counterexample: with provided-but-empty instructions and a blank
(single space) context, the claim as stated predicts a system turn whose
content is the provided instructions (the empty string) with nothing
appended; instead api/chat.js substitutes its default prompt, and the
part_001 variant both substitutes its default prompt and appends the blank
context. -/
theorem chat_prompt_empty_instructions_blank_context :
    outMessages (chatHandler "POST" (some "sk_test")
        { messages := .arr [{ role := "user", content := "hi" }],
          instructions := some "", context := some " " })
      = [{ role := "system", content := "You are a helpful AI assistant." },
         { role := "user", content := "hi" }]
    ∧ outMessages (chatHandlerV0 "POST"
        { messages := .arr [{ role := "user", content := "hi" }],
          instructions := some "", context := some " " })
      = [{ role := "system",
           content := "You are a helpful assistant.\n\nRelevant information from uploaded documents:\n " },
         { role := "user", content := "hi" }]
    ∧ ("You are a helpful AI assistant." : String) ≠ "" := by
  exact ⟨rfl, rfl, by decide⟩

/-! ## Subscription Action Dispatcher (api/stripe-config.js, src/unnamed/part_000) -/

/-- A billing-gateway customer record, as found by `customers.list({email})`. -/
structure StripeCustomer where
  id : String
  email : String
deriving DecidableEq

/-- Gateway-side state read by the Dispatcher: the existing customers. -/
structure Gateway where
  customers : List StripeCustomer
deriving DecidableEq

/-- A call issued to the billing gateway, carrying the arguments the code
passes.  `checkoutCreate customerId unitAmount feePercent feeAmountMinor
metadataType` records a `checkout.sessions.create` call: the line-item unit
amount in minor units, the `application_fee_percent` value when one is sent,
the minor-unit application fee amount when one is sent, and the metadata
`type` tag. -/
inductive GatewayCall where
  | customersList : String → GatewayCall
  | customersCreate : String → GatewayCall
  | checkoutCreate : String → ℤ → Option ℤ → Option ℤ → String → GatewayCall
deriving DecidableEq

/-- Response of a Dispatcher operation: a JSON error with an HTTP status, or
a created checkout session (session id, customer id). -/
inductive DispatchResult where
  | errorResp : Nat → String → DispatchResult
  | sessionResp : String → String → DispatchResult
deriving DecidableEq

/-- Line 217 of api/stripe-config.js:
`Math.round(monthlyPrice * 100 * 0.30)`.  The source computes this value but
never passes it to the gateway — the checkout session carries
`application_fee_percent: 30` instead. -/
def applicationFeeAmount (monthlyPrice : ℚ) : ℤ :=
  jsRound (monthlyPrice * 100 * (30/100))

/-- `createCreatorSubscription`, lines 53-110: reject when the active-row
lookup (`.eq(user_id).eq(status,'active').single()`) yields a row, otherwise
find-or-create a customer by email and create a fixed $19/month checkout
session. -/
def createCreatorSubscription (db : DB) (gw : Gateway) (userId email : String) :
    DispatchResult × List GatewayCall :=
  match singleRow (db.creator_subscriptions.filter
      fun r => r.user_id == userId && r.status == "active") with
  | some _ => (.errorResp 400 "Already has active creator subscription", [])
  | none =>
      match ((gw.customers.filter fun c => c.email == email).take 1).head? with
      | some c =>
          (.sessionResp ("cs_creator_" ++ userId) c.id,
            [.customersList email,
             .checkoutCreate c.id 1900 none none "creator_subscription"])
      | none =>
          (.sessionResp ("cs_creator_" ++ userId) ("cus_" ++ userId),
            [.customersList email, .customersCreate email,
             .checkoutCreate ("cus_" ++ userId) 1900 none none "creator_subscription"])

/-- `createCustomerSubscription`, lines 169-256: reject when the connect
account is missing or onboarding is incomplete, when an active subscription
for (customer, gpt) exists, or when the listing lookup fails; otherwise
create a customer on the connected account and a checkout session whose unit
amount is `Math.round(monthlyPrice * 100)` and whose fee is sent as
`application_fee_percent: 30` (the minor-unit `applicationFeeAmount` of line
217 is not sent). -/
def createCustomerSubscription (db : DB) (userId email gptId creatorId : String)
    (monthlyPrice : ℚ) : DispatchResult × List GatewayCall :=
  match singleRow (db.creator_connect_accounts.filter
      fun r => r.user_id == creatorId) with
  | none => (.errorResp 400 "Creator payment setup not complete", [])
  | some acct =>
      if !acct.onboarding_complete then
        (.errorResp 400 "Creator payment setup not complete", [])
      else
        match singleRow (db.customer_subscriptions.filter
            fun r => r.customer_id == userId && r.gpt_id == gptId
              && r.status == "active") with
        | some _ => (.errorResp 400 "Already subscribed to this GPT", [])
        | none =>
            match singleRow (db.user_gpts.filter fun g => g.id == gptId) with
            | none => (.errorResp 400 "GPT not found", [])
            | some _ =>
                (.sessionResp ("cs_customer_" ++ userId) ("cus_" ++ userId),
                  [.customersCreate email,
                   .checkoutCreate ("cus_" ++ userId) (jsRound (monthlyPrice * 100))
                     (some 30) none "customer_subscription"])

/-- Concrete store on the happy path of `createCustomerSubscription`: one
onboarded connect account for the creator, one listing, no prior
subscription. -/
def happyDb : DB :=
  { creator_subscriptions := [],
    customer_subscriptions := [],
    creator_connect_accounts :=
      [{ user_id := "creator1", stripe_account_id := "acct_1",
         onboarding_complete := true, charges_enabled := true,
         payouts_enabled := true }],
    user_gpts := [{ id := "gpt1", gpt_data_name := "G", gpt_data_description := "D" }] }

/-- C3 (amended): for every decimal monthly price `p` the Dispatcher computes
a platform fee of `round(p * 100 * 0.30)` minor units (ties rounded half-up),
but this amount is not sent to the gateway — the checkout session instead
carries `application_fee_percent = 30`; the unit amount sent equals
`round(p * 100)` minor units.  In particular, for `p = 29.99` the computed
fee is 900 minor units and the unit amount sent is 2999 minor units. -/
theorem customer_subscription_fee_computation (p : ℚ) :
    applicationFeeAmount p = jsRound (p * 100 * (30/100))
    ∧ (createCustomerSubscription happyDb "cust1" "c@x" "gpt1" "creator1" p).2
      = [.customersCreate "c@x",
         .checkoutCreate "cus_cust1" (jsRound (p * 100)) (some 30) none
           "customer_subscription"]
    ∧ applicationFeeAmount (2999/100) = 900
    ∧ jsRound ((2999/100 : ℚ) * 100) = 2999 := by
  refine ⟨rfl, rfl, ?_, ?_⟩
  · unfold applicationFeeAmount jsRound
    norm_num
  · unfold jsRound
    norm_num

/-- C3 counterexample: at `p = 29.99` the checkout call issued to the
gateway carries no minor-unit fee amount at all (the fee field sent is the
percentage 30); the computed 900-minor-unit value is therefore not the fee
sent, contradicting the claim as stated. -/
theorem fee_not_sent_in_minor_units :
    (createCustomerSubscription happyDb "cust1" "c@x" "gpt1" "creator1" (2999/100)).2
      = [.customersCreate "c@x",
         .checkoutCreate "cus_cust1" 2999 (some 30) none "customer_subscription"]
    ∧ (none : Option ℤ) ≠ some (applicationFeeAmount (2999/100)) := by
  constructor
  · have h : jsRound (2999 : ℚ) = 2999 := by
      unfold jsRound
      norm_num
    simp [createCustomerSubscription, happyDb, singleRow, h]
  · simp

/-- C6 (amended): a creator-subscription request by a user with exactly one
active creator-subscription row is rejected with Conflict and issues no
billing-gateway call.  (The duplicate check reads the row with `.single()`,
whose data is null unless exactly one row matches, so a user holding several
active rows slips past the check — see the counterexample.) -/
theorem creator_conflict_on_single_active (db : DB) (gw : Gateway)
    (userId email : String)
    (h : (db.creator_subscriptions.filter
        fun r => r.user_id == userId && r.status == "active").length = 1) :
    createCreatorSubscription db gw userId email
      = (.errorResp 400 "Already has active creator subscription", []) := by
  rcases List.length_eq_one.mp h with ⟨r, hr⟩
  simp [createCreatorSubscription, hr, singleRow]

/-- C6 witness: one active row for the user forces the Conflict answer. -/
theorem creator_conflict_on_single_active_witness :
    createCreatorSubscription
        { creator_subscriptions :=
            [{ user_id := "u1", stripe_customer_id := "c",
               stripe_subscription_id := "s", status := "active" }],
          customer_subscriptions := [],
          creator_connect_accounts := [],
          user_gpts := [] }
        { customers := [] } "u1" "u@x"
      = (.errorResp 400 "Already has active creator subscription", []) :=
  creator_conflict_on_single_active _ _ "u1" "u@x" (by decide)

/-- C6 counterexample: a user who already holds TWO active
creator-subscription rows is not rejected — `.single()` errors on multiple
matches, its data is null, and the code proceeds to the gateway and creates
a new checkout session. -/
theorem creator_conflict_missed_on_duplicate_active_rows :
    createCreatorSubscription
        { creator_subscriptions :=
            [{ user_id := "u1", stripe_customer_id := "c1",
               stripe_subscription_id := "s1", status := "active" },
             { user_id := "u1", stripe_customer_id := "c2",
               stripe_subscription_id := "s2", status := "active" }],
          customer_subscriptions := [],
          creator_connect_accounts := [],
          user_gpts := [] }
        { customers := [] } "u1" "u@x"
      = (.sessionResp "cs_creator_u1" "cus_u1",
         [.customersList "u@x", .customersCreate "u@x",
          .checkoutCreate "cus_u1" 1900 none none "creator_subscription"])
    ∧ ([GatewayCall.customersList "u@x", .customersCreate "u@x",
        .checkoutCreate "cus_u1" 1900 none none "creator_subscription"]) ≠
        ([] : List GatewayCall) := by
  exact ⟨rfl, by decide⟩

/-- The operation reached the checkout-session step. -/
def isCheckoutCreate : GatewayCall → Bool
  | .checkoutCreate _ _ _ _ _ => true
  | _ => false

/-- The operation answered with a created session rather than an error. -/
def isSessionResp : DispatchResult → Bool
  | .sessionResp _ _ => true
  | .errorResp _ _ => false

/-- C10: the duplicate check of `createCreatorSubscription` filters on
`status = 'active'`; a user none of whose rows is active (canceled,
past_due, or no rows at all) is not rejected with Conflict — the operation
proceeds to the gateway and creates a new checkout session. -/
theorem creator_check_ignores_inactive_rows (db : DB) (gw : Gateway)
    (userId email : String)
    (h : (db.creator_subscriptions.filter
        fun r => r.user_id == userId && r.status == "active") = []) :
    isSessionResp (createCreatorSubscription db gw userId email).1 = true
    ∧ ((createCreatorSubscription db gw userId email).2.any isCheckoutCreate) = true := by
  cases hl : ((gw.customers.filter fun c => c.email == email).take 1).head? with
  | none =>
      simp [createCreatorSubscription, h, singleRow, hl, isSessionResp, isCheckoutCreate]
  | some c =>
      simp [createCreatorSubscription, h, singleRow, hl, isSessionResp, isCheckoutCreate]

/-- C10 witness: a user whose only row is canceled proceeds to checkout. -/
theorem creator_check_ignores_inactive_rows_witness :
    isSessionResp (createCreatorSubscription
        { creator_subscriptions :=
            [{ user_id := "u1", stripe_customer_id := "c",
               stripe_subscription_id := "s", status := "canceled" }],
          customer_subscriptions := [],
          creator_connect_accounts := [],
          user_gpts := [] }
        { customers := [] } "u1" "u@x").1 = true
    ∧ ((createCreatorSubscription
        { creator_subscriptions :=
            [{ user_id := "u1", stripe_customer_id := "c",
               stripe_subscription_id := "s", status := "canceled" }],
          customer_subscriptions := [],
          creator_connect_accounts := [],
          user_gpts := [] }
        { customers := [] } "u1" "u@x").2.any isCheckoutCreate) = true :=
  creator_check_ignores_inactive_rows _ _ "u1" "u@x" (by decide)

end ErinGPT
